import Mathlib

/-!
Verification of `build.py` from obhq/obliteration: a build script that
invokes the cargo toolchain, parses its JSON event stream, exports the
built artifacts into a platform-specific layout, and optionally
re-launches the exported GUI in debug mode.

Shallow embedding: pure data flow is translated into Lean functions;
filesystem and process effects are recorded as explicit operation traces.
-/

/-- A `compiler-artifact` JSON record, restricted to the fields the script
reads: `package_id` (compared to the resolved pkgid) and `executable`
(the built binary's path). -/
structure Artifact where
  package_id : String
  executable : String
deriving DecidableEq

/-- One parsed line of `cargo build --message-format json-render-diagnostics`
output, as the loop at build.py lines 43-53 reads it: a `build-finished`
record with its `success` flag, a `compiler-artifact` record, or any other
record (which the loop ignores). -/
inductive Event where
  | buildFinished (success : Bool)
  | compilerArtifact (art : Artifact)
  | other
deriving DecidableEq

/-- Outcome of the `cargo` function's event loop (build.py lines 42-55):
`artifact a` means `return artifact` succeeds with `a`; `exit c` means
`sys.exit(c)`; `error` means an uncaught Python exception
(`UnboundLocalError` from `return artifact` when no artifact was ever
assigned), which terminates the process with status 1. -/
inductive CargoOutcome where
  | artifact (a : Artifact)
  | exit (code : Nat)
  | error
deriving DecidableEq

/-- The event loop of `cargo` (build.py lines 42-55). `id` is the resolved
package identity from `cargo pkgid`; `acc` is the current value of the
Python local `artifact` (`none` = not yet assigned). On `build-finished`
with `success: true` the loop breaks and returns the captured artifact
(UnboundLocalError if none); with `success: false` it calls `sys.exit(1)`.
A `compiler-artifact` whose `package_id` equals `id` overwrites the
capture; everything else is skipped. At end of stream the loop falls
through to `return artifact`. -/
def cargoEvents (id : String) : List Event → Option Artifact → CargoOutcome
  | [], none => .error
  | [], some a => .artifact a
  | .buildFinished true :: _, none => .error
  | .buildFinished true :: _, some a => .artifact a
  | .buildFinished false :: _, _ => .exit 1
  | .compilerArtifact a :: rest, acc =>
      cargoEvents id rest (if a.package_id = id then some a else acc)
  | .other :: rest, acc => cargoEvents id rest acc

/-- The capture step of the loop: how one event updates the `artifact`
local. -/
def capture (id : String) (acc : Option Artifact) : Event → Option Artifact
  | .compilerArtifact a => if a.package_id = id then some a else acc
  | _ => acc

/-- Whether an event is a `build-finished` record (terminal for the loop). -/
def isTerminal : Event → Bool
  | .buildFinished _ => true
  | _ => false

/-- A stream segment containing no terminal (`build-finished`) event. -/
def noTerminal (xs : List Event) : Bool := xs.all (fun e => !isTerminal e)

/-- Whether an event is a `compiler-artifact` for the requested package. -/
def isMatch (id : String) : Event → Bool
  | .compilerArtifact a => decide (a.package_id = id)
  | _ => false

/-- A stream segment containing no matching `compiler-artifact` event. -/
def noMatch (id : String) (xs : List Event) : Bool := xs.all (fun e => !isMatch id e)

/-- The process-level exit status implied by a loop outcome: `none` when an
artifact is returned (the script continues), `some c` when the process
terminates with status `c` (an uncaught exception exits with status 1). -/
def fatalCode : CargoOutcome → Option Nat
  | .artifact _ => none
  | .exit c => some c
  | .error => some 1

lemma cargoEvents_capture (id : String) (a : Artifact) (rest : List Event)
    (acc : Option Artifact) :
    cargoEvents id (Event.compilerArtifact a :: rest) acc =
      cargoEvents id rest (capture id acc (Event.compilerArtifact a)) := by
  simp [cargoEvents, capture]

lemma cargoEvents_append_true (id : String) (ys : List Event) :
    ∀ (xs : List Event) (acc : Option Artifact), noTerminal xs = true →
      cargoEvents id (xs ++ Event.buildFinished true :: ys) acc =
        match xs.foldl (capture id) acc with
        | some a => CargoOutcome.artifact a
        | none => CargoOutcome.error := by
  intro xs
  induction xs with
  | nil =>
      intro acc _
      cases acc <;> simp [cargoEvents]
  | cons e rest ih =>
      intro acc h
      simp [noTerminal, List.all_cons] at h
      cases e with
      | buildFinished s => simp [isTerminal] at h
      | compilerArtifact a =>
          have h' : noTerminal rest = true := by
            simp [noTerminal]; exact h.2
          simp only [List.cons_append, cargoEvents_capture, List.foldl_cons]
          exact ih _ h'
      | other =>
          have h' : noTerminal rest = true := by
            simp [noTerminal]; exact h.2
          simp only [List.cons_append]
          rw [show cargoEvents id (Event.other :: (rest ++ Event.buildFinished true :: ys)) acc
                = cargoEvents id (rest ++ Event.buildFinished true :: ys) acc from rfl]
          simpa [capture] using ih acc h'

lemma cargoEvents_append_false (id : String) (ys : List Event) :
    ∀ (xs : List Event) (acc : Option Artifact), noTerminal xs = true →
      cargoEvents id (xs ++ Event.buildFinished false :: ys) acc = CargoOutcome.exit 1 := by
  intro xs
  induction xs with
  | nil =>
      intro acc _
      cases acc <;> simp [cargoEvents]
  | cons e rest ih =>
      intro acc h
      simp [noTerminal, List.all_cons] at h
      cases e with
      | buildFinished s => simp [isTerminal] at h
      | compilerArtifact a =>
          have h' : noTerminal rest = true := by
            simp [noTerminal]; exact h.2
          simp only [List.cons_append, cargoEvents_capture]
          exact ih _ h'
      | other =>
          have h' : noTerminal rest = true := by
            simp [noTerminal]; exact h.2
          simp only [List.cons_append]
          exact ih acc h'

lemma foldl_capture_package_id (id : String) :
    ∀ (xs : List Event) (acc : Option Artifact) (a : Artifact),
      xs.foldl (capture id) acc = some a →
      a.package_id = id ∨ acc = some a := by
  intro xs
  induction xs with
  | nil => intro acc a h; right; simpa using h
  | cons e rest ih =>
      intro acc a h
      rw [List.foldl_cons] at h
      rcases ih _ _ h with h1 | h2
      · left; exact h1
      · cases e with
        | compilerArtifact b =>
            simp only [capture] at h2
            by_cases hb : b.package_id = id
            · left
              rw [if_pos hb] at h2
              cases h2
              exact hb
            · right
              rwa [if_neg hb] at h2
        | buildFinished s => right; simpa [capture] using h2
        | other => right; simpa [capture] using h2

lemma foldl_capture_noMatch (id : String) :
    ∀ (xs : List Event) (acc : Option Artifact), noMatch id xs = true →
      xs.foldl (capture id) acc = acc := by
  intro xs
  induction xs with
  | nil => intro acc _; rfl
  | cons e rest ih =>
      intro acc h
      simp [noMatch, List.all_cons] at h
      have h' : noMatch id rest = true := by
        simp [noMatch]; exact h.2
      rw [List.foldl_cons]
      rw [show capture id acc e = acc from ?_]
      · exact ih _ h'
      · cases e with
        | compilerArtifact b =>
            have : ¬ b.package_id = id := by
              have := h.1
              simpa [isMatch] using this
            simp [capture, this]
        | buildFinished s => rfl
        | other => rfl

lemma foldl_capture_filter (id : String) :
    ∀ (xs : List Event) (acc : Option Artifact),
      (xs.filter (isMatch id)).foldl (capture id) acc = xs.foldl (capture id) acc := by
  intro xs
  induction xs with
  | nil => intro acc; rfl
  | cons e rest ih =>
      intro acc
      by_cases hm : isMatch id e = true
      · rw [List.filter_cons_of_pos hm, List.foldl_cons, List.foldl_cons]
        exact ih _
      · rw [List.filter_cons_of_neg (by simpa using hm), List.foldl_cons]
        rw [show capture id acc e = acc from ?_]
        · exact ih acc
        · cases e with
          | compilerArtifact b =>
              have : ¬ b.package_id = id := by simpa [isMatch] using hm
              simp [capture, this]
          | buildFinished s => rfl
          | other => rfl

lemma noTerminal_filter (id : String) (xs : List Event) (h : noTerminal xs = true) :
    noTerminal (xs.filter (isMatch id)) = true := by
  simp only [noTerminal, List.all_eq_true] at h ⊢
  intro e he
  exact h e (List.mem_of_mem_filter he)

lemma cargoEvents_noMatch_fatal (id : String) :
    ∀ (events : List Event), noMatch id events = true →
      cargoEvents id events none = CargoOutcome.error ∨
      cargoEvents id events none = CargoOutcome.exit 1 := by
  intro events
  induction events with
  | nil => intro _; left; rfl
  | cons e rest ih =>
      intro h
      simp [noMatch, List.all_cons] at h
      have h' : noMatch id rest = true := by
        simp [noMatch]; exact h.2
      cases e with
      | buildFinished s =>
          cases s with
          | true => left; rfl
          | false => right; rfl
      | compilerArtifact b =>
          have hb : ¬ b.package_id = id := by
            have := h.1
            simpa [isMatch] using this
          rw [cargoEvents_capture]
          simpa [capture, hb] using ih h'
      | other =>
          exact ih h'

/-- C1: a stream of interleaved events with no terminal record before the
final matching artifact, followed by `build-finished{success:true}`,
makes the invoker return exactly the last matching artifact (later
matching events overwrite earlier captures via `capture`); the result is
unchanged when all non-matching and unrecognized events are filtered out,
and the returned artifact's `package_id` equals the requested identity. -/
theorem cargo_last_match (id : String) (xs ys : List Event) (a : Artifact)
    (hterm : noTerminal xs = true)
    (hlast : xs.foldl (capture id) none = some a) :
    cargoEvents id (xs ++ Event.buildFinished true :: ys) none = CargoOutcome.artifact a ∧
    cargoEvents id (xs.filter (isMatch id) ++ Event.buildFinished true :: ys) none =
      CargoOutcome.artifact a ∧
    a.package_id = id := by
  refine ⟨?_, ?_, ?_⟩
  · rw [cargoEvents_append_true id ys xs none hterm, hlast]
  · rw [cargoEvents_append_true id ys _ none (noTerminal_filter id xs hterm),
      foldl_capture_filter, hlast]
  · rcases foldl_capture_package_id id xs none a hlast with h | h
    · exact h
    · simp at h

theorem cargo_last_match_witness :
    cargoEvents "pkg"
        ([Event.compilerArtifact ⟨"zzz", "u1"⟩, Event.compilerArtifact ⟨"pkg", "e1"⟩,
          Event.other, Event.compilerArtifact ⟨"pkg", "e2"⟩] ++
          Event.buildFinished true :: [Event.other]) none =
      CargoOutcome.artifact ⟨"pkg", "e2"⟩ ∧
    cargoEvents "pkg"
        (([Event.compilerArtifact ⟨"zzz", "u1"⟩, Event.compilerArtifact ⟨"pkg", "e1"⟩,
          Event.other, Event.compilerArtifact ⟨"pkg", "e2"⟩].filter (isMatch "pkg")) ++
          Event.buildFinished true :: [Event.other]) none =
      CargoOutcome.artifact ⟨"pkg", "e2"⟩ ∧
    Artifact.package_id ⟨"pkg", "e2"⟩ = "pkg" :=
  cargo_last_match "pkg"
    [Event.compilerArtifact ⟨"zzz", "u1"⟩, Event.compilerArtifact ⟨"pkg", "e1"⟩,
      Event.other, Event.compilerArtifact ⟨"pkg", "e2"⟩]
    [Event.other] ⟨"pkg", "e2"⟩ (by decide) (by decide)

/-- C3: when the stream never contains a `compiler-artifact` matching the
requested identity, the invocation terminates fatally with a non-zero
process-level exit status (either `sys.exit(1)` on a failed terminal
event, or an uncaught `UnboundLocalError` from `return artifact`): it
never returns an artifact. -/
theorem cargo_no_match_fatal (id : String) (events : List Event)
    (h : noMatch id events = true) :
    ∃ c, fatalCode (cargoEvents id events none) = some c ∧ c ≠ 0 := by
  rcases cargoEvents_noMatch_fatal id events h with h1 | h1 <;>
    exact ⟨1, by rw [h1]; rfl, one_ne_zero⟩

theorem cargo_no_match_fatal_witness :
    ∃ c, fatalCode (cargoEvents "pkg"
      [Event.compilerArtifact ⟨"zzz", "u1"⟩, Event.other] none) = some c ∧ c ≠ 0 :=
  cargo_no_match_fatal "pkg" [Event.compilerArtifact ⟨"zzz", "u1"⟩, Event.other] (by decide)

/-- C6: a `build-finished{success:true}` terminal event arriving with no
matching artifact ever captured is fatal (`return artifact` raises
`UnboundLocalError`): the invocation never returns an artifact. -/
theorem cargo_success_no_capture (id : String) (xs ys : List Event)
    (hterm : noTerminal xs = true) (hmatch : noMatch id xs = true) :
    cargoEvents id (xs ++ Event.buildFinished true :: ys) none = CargoOutcome.error := by
  rw [cargoEvents_append_true id ys xs none hterm, foldl_capture_noMatch id xs none hmatch]

theorem cargo_success_no_capture_witness :
    cargoEvents "pkg"
        ([Event.compilerArtifact ⟨"zzz", "u1"⟩, Event.other] ++
          Event.buildFinished true :: []) none = CargoOutcome.error :=
  cargo_success_no_capture "pkg" [Event.compilerArtifact ⟨"zzz", "u1"⟩, Event.other] []
    (by decide) (by decide)

/-- C7: a `build-finished{success:false}` terminal event makes the invoker
call `sys.exit(1)`, no matter how many artifact events (matching or not)
preceded it. -/
theorem cargo_terminal_failure (id : String) (xs ys : List Event)
    (hterm : noTerminal xs = true) :
    cargoEvents id (xs ++ Event.buildFinished false :: ys) none = CargoOutcome.exit 1 := by
  exact cargoEvents_append_false id ys xs none hterm

theorem cargo_terminal_failure_witness :
    cargoEvents "pkg"
        ([Event.compilerArtifact ⟨"pkg", "e1"⟩, Event.compilerArtifact ⟨"zzz", "u1"⟩] ++
          Event.buildFinished false :: []) none = CargoOutcome.exit 1 :=
  cargo_terminal_failure "pkg"
    [Event.compilerArtifact ⟨"pkg", "e1"⟩, Event.compilerArtifact ⟨"zzz", "u1"⟩] []
    (by decide)

/-- POSIX `os.path.join(a, b)` for two components, with `/` as separator
(the spec writes every layout with `/`): if `b` is absolute it replaces
`a`; otherwise `b` is appended, inserting `/` unless `a` is empty or
already ends with `/`. -/
def joinPath (a b : String) : String :=
  if b.toList.headD ' ' = '/' then b
  else if a.toList = [] ∨ a.toList.getLastD ' ' = '/' then a ++ b
  else a ++ "/" ++ b

/-- Index one past the last `/` in the list, or `0` when there is none
(Python `p.rfind(sep) + 1` with `rfind` returning `-1` on no match). -/
def lastSlashIdx (cs : List Char) : Nat :=
  cs.enum.foldl (fun acc p => if p.2 = '/' then p.1 + 1 else acc) 0

/-- Drop trailing `/` characters (Python `head.rstrip(sep)`). -/
def dropTrailingSlashes (cs : List Char) : List Char :=
  ((cs.reverse).dropWhile (fun c => c = '/')).reverse

/-- POSIX `os.path.split(p)`: split at the last `/`; the head keeps its
trailing slashes only when it consists solely of slashes. -/
def splitPath (p : String) : String × String :=
  let cs := p.toList
  let i := lastSlashIdx cs
  let head := cs.take i
  let tail := cs.drop i
  let head :=
    if head ≠ [] ∧ head.any (fun c => c ≠ '/') then dropTrailingSlashes head else head
  (String.mk head, String.mk tail)

/-- POSIX `os.path.basename(p)`: the tail of `os.path.split`. -/
def basename (p : String) : String := (splitPath p).2

/-- Python `str.capitalize()`: first character uppercased, every other
character lowercased (ASCII inputs here). -/
def capitalize (s : String) : String :=
  match s.toList with
  | [] => ""
  | c :: rest => String.mk (c.toUpper :: rest.map Char.toLower)

/-- Characters allowed in a URI scheme (`urllib.parse.scheme_chars`). -/
def isSchemeChar (c : Char) : Bool := c.isAlphanum || c = '+' || c = '-' || c = '.'

/-- Result of `urllib.parse.urlparse`, restricted to the components the
script can observe: scheme, network location, path, query, fragment. -/
structure UrlParts where
  scheme : String
  netloc : String
  path : String
  query : String
  fragment : String
deriving DecidableEq

/-- Scheme split of `urllib.parse.urlsplit`: if the text before the first
`:` is non-empty, starts with a letter and uses only scheme characters,
it is the (lowercased) scheme and the rest follows the `:`. -/
def splitScheme (cs : List Char) : List Char × List Char :=
  match cs.findIdx? (fun c => c = ':') with
  | none => ([], cs)
  | some i =>
      if 0 < i ∧ (cs.headD ' ').isAlpha ∧ (cs.take i).all isSchemeChar then
        ((cs.take i).map Char.toLower, cs.drop (i + 1))
      else ([], cs)

/-- Netloc split of `urllib.parse.urlsplit`: after a leading `//`, the
netloc runs until the first `/`, `?` or `#`. -/
def splitNetloc (cs : List Char) : List Char × List Char :=
  match cs with
  | '/' :: '/' :: rest =>
      (rest.takeWhile (fun c => c ≠ '/' ∧ c ≠ '?' ∧ c ≠ '#'),
        rest.dropWhile (fun c => c ≠ '/' ∧ c ≠ '?' ∧ c ≠ '#'))
  | _ => ([], cs)

/-- Split a list at the first occurrence of `sep`: Python
`s.split(sep, 1)` returning the part before and the part after (the part
after is empty and nothing is consumed when `sep` is absent — the second
component then also reports absence via the boolean being irrelevant
here, since the script only reads `path`). -/
def splitOnce (sep : Char) (cs : List Char) : List Char × List Char :=
  (cs.takeWhile (fun c => c ≠ sep), (cs.dropWhile (fun c => c ≠ sep)).drop 1)

/-- Embedding of `urllib.parse.urlparse` on the inputs the script feeds it (no URL
parameters): scheme, then netloc after `//`, then the fragment after the
first `#`, then the query after the first `?`; the remainder is the path. -/
def urlparse (s : String) : UrlParts :=
  let (scheme, rest) := splitScheme s.toList
  let (netloc, rest) := splitNetloc rest
  let (rest, fragment) := splitOnce '#' rest
  let (path, query) := splitOnce '?' rest
  { scheme := String.mk scheme, netloc := String.mk netloc, path := String.mk path,
    query := String.mk query, fragment := String.mk fragment }

/-- The package path resolution at build.py lines 20-25: take the `path`
component of the parsed pkgid URL and, on Windows, drop its first
character (the `/` in front of the drive letter). -/
def packagePath (isWindows : Bool) (id : String) : String :=
  let path := (urlparse id).path
  if isWindows then path.drop 1 else path

/-- Modelled from the spec for comparison with `packagePath`: the claim's
wording of the resolver, which on the non-Windows code path yields the
concatenation of the URI's host and path segments. -/
def packagePathClaimed (isWindows : Bool) (id : String) : String :=
  let u := urlparse id
  if isWindows then u.path.drop 1 else u.netloc ++ u.path

/-- C4 counterexample: on the non-Windows code path the resolver yields
only the URL's path component; for a pkgid with a non-empty host the
claimed host-and-path concatenation differs from what the code computes. -/
theorem packagePath_cex :
    packagePath false "file://host/src/pkg" = "/src/pkg" ∧
    packagePathClaimed false "file://host/src/pkg" = "host/src/pkg" ∧
    packagePath false "file://host/src/pkg" ≠ packagePathClaimed false "file://host/src/pkg" := by
  refine ⟨by decide, by decide, by decide⟩

/-- C4 amended: on the Windows-like code path the resolver strips the
spurious leading separator before the drive letter
(`file:///C:/src/pkg` yields `C:/src/pkg`); on the other code path it
yields the URI's path segment unchanged, without using the host segment. -/
theorem packagePath_amended (id : String) :
    packagePath true "file:///C:/src/pkg" = "C:/src/pkg" ∧
    packagePath false id = (urlparse id).path := by
  constructor
  · decide
  · simp [packagePath]

theorem packagePath_amended_witness :
    packagePath true "file:///C:/src/pkg" = "C:/src/pkg" ∧
    packagePath false "file:///home/u/pkg" = (urlparse "file:///home/u/pkg").path :=
  packagePath_amended "file:///home/u/pkg"

/-- A filesystem or process effect performed by the export and
orchestration code. `copy src dir` is `shutil.copy(src, dir)` with a
directory destination (the file lands at `dir/basename(src)`);
`copyfile src dst` is `shutil.copyfile(src, dst)` with a full destination
path; `move` is `shutil.move`, modelled so that its absence from every
trace is expressible (the script never moves artifacts); `sign` is the
`codesign` invocation on the bundle; `rmtree` is `shutil.rmtree`. -/
inductive FsOp where
  | mkdir (path : String)
  | copy (src dir : String)
  | copyfile (src dst : String)
  | move (src dst : String)
  | rmtree (path : String)
  | sign (bundle : String)
deriving DecidableEq

/-- The function `export_darwin` (build.py lines 57-81): creates the
`Obliteration.app/Contents/{MacOS,Resources}` bundle directories, copies
the kernel executable into `Resources`, splits the GUI executable's path,
capitalizes its base name, copies the file of that capitalized name from
the same directory into `MacOS`, copies the icon and `Info.plist`, signs
the bundle, and returns the path of the capitalized name inside `MacOS`. -/
def export_darwin (root : String) (kern gui : Artifact) : List FsOp × String :=
  let bundle := joinPath root "Obliteration.app"
  let contents := joinPath bundle "Contents"
  let macos := joinPath contents "MacOS"
  let resources := joinPath contents "Resources"
  let p := splitPath gui.executable
  let g := capitalize p.2
  ([FsOp.mkdir bundle, FsOp.mkdir contents, FsOp.mkdir macos, FsOp.mkdir resources,
    FsOp.copy kern.executable resources,
    FsOp.copy (joinPath p.1 g) macos,
    FsOp.copyfile "bundle.icns" (joinPath resources "obliteration.icns"),
    FsOp.copy "Info.plist" contents,
    FsOp.sign bundle],
   joinPath macos g)

/-- The function `export_linux` (build.py lines 83-98): creates `bin` and `share` under
the root, copies the kernel into `share` and the GUI executable into
`bin`, and returns `bin/<basename of the GUI executable>`. -/
def export_linux (root : String) (kern gui : Artifact) : List FsOp × String :=
  let bin := joinPath root "bin"
  let share := joinPath root "share"
  ([FsOp.mkdir bin, FsOp.mkdir share,
    FsOp.copy kern.executable share,
    FsOp.copy gui.executable bin],
   joinPath bin (basename gui.executable))

/-- The function `export_windows` (build.py lines 100-113): creates `share` under the
root, copies the kernel into `share` and the GUI executable directly into
the root, and returns `<root>/<basename of the GUI executable>`. -/
def export_windows (root : String) (kern gui : Artifact) : List FsOp × String :=
  let share := joinPath root "share"
  ([FsOp.mkdir share,
    FsOp.copy kern.executable share,
    FsOp.copy gui.executable root],
   joinPath root (basename gui.executable))

/-- C2 counterexample: with GUI executable `/a/myApp`, the macOS exporter
does not copy the file named by the artifact's executable path into
`MacOS`; it copies `/a/Myapp` (capitalized base name) instead, and the
returned path ends in the capitalized name, not the original one. -/
theorem export_darwin_cex :
    FsOp.copy "/a/myApp" "dist/Obliteration.app/Contents/MacOS"
        ∉ (export_darwin "dist" ⟨"k", "/k/kern"⟩ ⟨"g", "/a/myApp"⟩).1 ∧
    FsOp.copy "/a/Myapp" "dist/Obliteration.app/Contents/MacOS"
        ∈ (export_darwin "dist" ⟨"k", "/k/kern"⟩ ⟨"g", "/a/myApp"⟩).1 ∧
    (export_darwin "dist" ⟨"k", "/k/kern"⟩ ⟨"g", "/a/myApp"⟩).2
        = "dist/Obliteration.app/Contents/MacOS/Myapp" ∧
    (export_darwin "dist" ⟨"k", "/k/kern"⟩ ⟨"g", "/a/myApp"⟩).2
        ≠ "dist/Obliteration.app/Contents/MacOS/myApp" := by
  refine ⟨by decide, by decide, by decide, by decide⟩

/-- C2 amended: the macOS exporter creates
`<root>/Obliteration.app/Contents/{MacOS,Resources}`, copies the kernel
executable into `Resources`, copies — from the directory of the GUI
artifact's executable — the file whose name is the Python-capitalized
base name (first letter uppercased, the rest lowercased) into `MacOS`,
copies the fixed icon into `Resources` and the property-list manifest
into `Contents`, and returns the path of that copied capitalized file
inside `MacOS`. -/
theorem export_darwin_amended (root : String) (kern gui : Artifact) :
    FsOp.mkdir (joinPath root "Obliteration.app") ∈ (export_darwin root kern gui).1 ∧
    FsOp.mkdir (joinPath (joinPath root "Obliteration.app") "Contents")
        ∈ (export_darwin root kern gui).1 ∧
    FsOp.mkdir (joinPath (joinPath (joinPath root "Obliteration.app") "Contents") "MacOS")
        ∈ (export_darwin root kern gui).1 ∧
    FsOp.mkdir (joinPath (joinPath (joinPath root "Obliteration.app") "Contents") "Resources")
        ∈ (export_darwin root kern gui).1 ∧
    FsOp.copy kern.executable
        (joinPath (joinPath (joinPath root "Obliteration.app") "Contents") "Resources")
        ∈ (export_darwin root kern gui).1 ∧
    FsOp.copy (joinPath (splitPath gui.executable).1 (capitalize (splitPath gui.executable).2))
        (joinPath (joinPath (joinPath root "Obliteration.app") "Contents") "MacOS")
        ∈ (export_darwin root kern gui).1 ∧
    FsOp.copyfile "bundle.icns"
        (joinPath (joinPath (joinPath (joinPath root "Obliteration.app") "Contents") "Resources")
          "obliteration.icns")
        ∈ (export_darwin root kern gui).1 ∧
    FsOp.copy "Info.plist" (joinPath (joinPath root "Obliteration.app") "Contents")
        ∈ (export_darwin root kern gui).1 ∧
    (export_darwin root kern gui).2 =
      joinPath (joinPath (joinPath (joinPath root "Obliteration.app") "Contents") "MacOS")
        (capitalize (splitPath gui.executable).2) := by
  simp [export_darwin]

/-- C8: the Linux exporter creates `<root>/{bin,share}`, copies the GUI
executable into `bin` and the kernel into `share`, and returns
`<root>/bin/<original GUI base name>`; the Windows exporter creates
`<root>/share`, copies the kernel into `share` and the GUI executable
directly into `<root>`, and returns `<root>/<original GUI base name>`;
neither trace contains a move operation (artifacts are copied, never
moved). -/
theorem export_linux_windows_spec (root : String) (kern gui : Artifact) :
    FsOp.mkdir (joinPath root "bin") ∈ (export_linux root kern gui).1 ∧
    FsOp.mkdir (joinPath root "share") ∈ (export_linux root kern gui).1 ∧
    FsOp.copy gui.executable (joinPath root "bin") ∈ (export_linux root kern gui).1 ∧
    FsOp.copy kern.executable (joinPath root "share") ∈ (export_linux root kern gui).1 ∧
    (export_linux root kern gui).2 = joinPath (joinPath root "bin") (basename gui.executable) ∧
    FsOp.mkdir (joinPath root "share") ∈ (export_windows root kern gui).1 ∧
    FsOp.copy kern.executable (joinPath root "share") ∈ (export_windows root kern gui).1 ∧
    FsOp.copy gui.executable root ∈ (export_windows root kern gui).1 ∧
    (export_windows root kern gui).2 = joinPath root (basename gui.executable) ∧
    (∀ op ∈ (export_linux root kern gui).1, ∀ s d, op ≠ FsOp.move s d) ∧
    (∀ op ∈ (export_windows root kern gui).1, ∀ s d, op ≠ FsOp.move s d) := by
  refine ⟨by simp [export_linux], by simp [export_linux], by simp [export_linux],
    by simp [export_linux], by simp [export_linux], by simp [export_windows],
    by simp [export_windows], by simp [export_windows], by simp [export_windows], ?_, ?_⟩
  · intro op hop s d
    simp [export_linux] at hop
    rcases hop with h | h | h | h <;> simp [h]
  · intro op hop s d
    simp [export_windows] at hop
    rcases hop with h | h | h <;> simp [h]

/-- Output-directory preparation in `main` (build.py lines 157-166):
`dest = args.root`; when no root is supplied, `dest` is the fixed default
`dist`, which is removed with `shutil.rmtree` when it exists and then
recreated with `os.mkdir`. A caller-supplied root is used as-is with no
filesystem operation. `distExists` embeds `os.path.exists(dest)`. -/
def prepareDest (root : Option String) (distExists : Bool) : String × List FsOp :=
  match root with
  | some r => (r, [])
  | none => ("dist", (if distExists then [FsOp.rmtree "dist"] else []) ++ [FsOp.mkdir "dist"])

/-- C9: without a caller-supplied root, the orchestrator uses the fixed
default directory `dist` and, when it already exists, deletes it entirely
before recreating it (so nothing from a previous run survives); a
caller-supplied root is used as-is, with no delete or recreate. -/
theorem prepareDest_spec (r : String) :
    prepareDest none true = ("dist", [FsOp.rmtree "dist", FsOp.mkdir "dist"]) ∧
    prepareDest none false = ("dist", [FsOp.mkdir "dist"]) ∧
    prepareDest (some r) true = (r, []) ∧
    prepareDest (some r) false = (r, []) := by
  refine ⟨rfl, rfl, rfl, rfl⟩

/-- Parsing of the `--debug` option (build.py lines 125-130), following
argparse semantics for `nargs` set to `?` with a `const`: the outer
`Option` is whether the flag appears on the command line at all, the
inner one whether it carries an explicit argument. Absent flag yields the
default `None`; flag without argument yields the const
`127.0.0.1:1234`; flag with an argument yields that argument. -/
def parseDebug : Option (Option String) → Option String
  | none => none
  | some none => some "127.0.0.1:1234"
  | some (some v) => some v

/-- The VMM start at the end of `main` (build.py lines 181-187), given the
exported GUI path, the parsed debug address and the exit status the child
would produce when launched. Returns the command invoked (if any) and the
orchestrator's own exit status: with no address nothing is launched and
`main` returns (status 0); with an address the script runs
`[gui, '--debug', addr]` with `check=True`, so a non-zero child status
raises `CalledProcessError` and the interpreter exits with status 1. -/
def startVmm (gui : String) (addr : Option String) (childExit : Nat) :
    Option (List String) × Nat :=
  match addr with
  | none => (none, 0)
  | some a => (some [gui, "--debug", a], if childExit = 0 then 0 else 1)

/-- C5 counterexample: with debug address `127.0.0.1:1234` and a child
exit status of 3, the orchestrator's own exit status is 1, not the
child's status 3 (the `CalledProcessError` from `check=True` aborts the
interpreter with status 1). -/
theorem startVmm_cex :
    (startVmm "dist/bin/obliteration" (some "127.0.0.1:1234") 3).2 = 1 ∧
    (startVmm "dist/bin/obliteration" (some "127.0.0.1:1234") 3).2 ≠ 3 := by
  refine ⟨rfl, by decide⟩

/-- C5 amended: with a debug address supplied, the orchestrator invokes the
exported GUI executable with that address as the argument of the
`--debug` flag; it terminates with status 0 when the child exits 0 and
fails fatally with status 1 (not the child's status) when the child
exits non-zero; with no debug address, no re-launch occurs and the run
terminates successfully. -/
theorem startVmm_amended (gui a : String) (c : Nat) (h : c ≠ 0) :
    startVmm gui none c = (none, 0) ∧
    (startVmm gui (some a) c).1 = some [gui, "--debug", a] ∧
    (startVmm gui (some a) 0).2 = 0 ∧
    (startVmm gui (some a) c).2 = 1 := by
  refine ⟨rfl, rfl, rfl, ?_⟩
  simp [startVmm, h]

theorem startVmm_amended_witness :
    (3 : Nat) ≠ 0 ∧
    (startVmm "dist/bin/obliteration" none 3 = (none, 0) ∧
      (startVmm "dist/bin/obliteration" (some "127.0.0.1:1234") 3).1 =
        some ["dist/bin/obliteration", "--debug", "127.0.0.1:1234"] ∧
      (startVmm "dist/bin/obliteration" (some "127.0.0.1:1234") 0).2 = 0 ∧
      (startVmm "dist/bin/obliteration" (some "127.0.0.1:1234") 3).2 = 1) :=
  ⟨by decide, startVmm_amended "dist/bin/obliteration" "127.0.0.1:1234" 3 (by decide)⟩

/-- C10: the `--debug` option given without an explicit argument parses to
the literal address `127.0.0.1:1234`; when the option is absent the
parsed address is `None`, and then no re-launch is attempted (the VMM
start performs no invocation and exits with status 0). -/
theorem parseDebug_spec (gui : String) (c : Nat) :
    parseDebug (some none) = some "127.0.0.1:1234" ∧
    parseDebug none = none ∧
    startVmm gui (parseDebug none) c = (none, 0) := by
  refine ⟨rfl, rfl, rfl⟩
